import Mathlib

/-!
Verification of the Mini-Banking Fraud-Detection prototype.

Shallow embedding of the core pipeline:
  * `detection_logic.py`   — the Scorer (`score_transaction`),
  * `detection_service.py` — the Ingestion Pipeline (`validate_transaction`,
    `process_transaction`),
  * `notification_service.py` — the Notifier (`determine_severity`,
    `send_fraud_alert`),
  * `cache_wrapper.py`     — the Cache Layer (`cache_key`,
    `invalidate_pattern`, `invalidate_anomalies_cache`).

Python floats are modelled as rationals (`ℚ`); the inputs appearing in the
claims are far from any float-rounding boundary.  External library calls
(the `decision_function` of the ML model, `hashlib.md5(...).hexdigest()`,
`json.dumps`, the network sends of the notification channels) are modelled
as explicit function parameters, so every theorem below holds for every
behaviour of those externals.
-/

namespace FraudDetection

/-- A transaction as consumed by the Scorer: the fields of the Python dict
that `score_transaction` reads (`amount`, `merchant_category`, `location`). -/
structure Transaction where
  amount : ℚ
  merchant_category : String
  location : String

/-- Per-account aggregates as returned by `get_account_aggregates`
(`detection_logic.py` lines 13–22). -/
structure Aggregates where
  account_tx_count : ℕ
  account_avg_amount : ℚ

/-- The loaded ML model, reduced to what `score_transaction` uses of it:
`model.decision_function([[amount, account_avg, deviation]])[0]`, i.e. a
real-valued function of the three engineered features. -/
structure Model where
  decision_function : ℚ → ℚ → ℚ → ℚ

/-- Constant `HIGH_VALUE_THRESHOLD = 5000.00` (`detection_logic.py` line 9). -/
def HIGH_VALUE_THRESHOLD : ℚ := 5000

/-- Constant `SUSPICIOUS_MERCHANT` alias `Gambling` (`detection_logic.py` line 10). -/
def SUSPICIOUS_MERCHANT : String := "Gambling"

/-- Constant `STANDARD_LOCATION` alias `Helsinki` (`detection_logic.py` line 11). -/
def STANDARD_LOCATION : String := "Helsinki"

/-- The `1e-6` denominator guard of `detection_logic.py` line 34. -/
def epsilon : ℚ := 1 / 1000000

/-- Deviation feature, `(tx_amount - account_avg) / (account_avg + 1e-6)`
when `account_avg > 0`, else `0` (`detection_logic.py` line 34). -/
def deviation_of (tx_amount account_avg : ℚ) : ℚ :=
  if account_avg > 0 then (tx_amount - account_avg) / (account_avg + epsilon) else 0

/-- The rule-candidate list built in `detection_logic.py` lines 45–52, in
source order: High Value, Suspicious Combo, High Deviation, ML Risk. -/
def rule_reasons (transaction : Transaction) (aggregates : Aggregates)
    (deviation scaled_score : ℚ) : List String :=
  (if transaction.amount ≥ HIGH_VALUE_THRESHOLD then ["High Value"] else []) ++
  (if transaction.merchant_category = SUSPICIOUS_MERCHANT ∧
      transaction.location ≠ STANDARD_LOCATION then ["Suspicious Combo"] else []) ++
  (if deviation ≥ 5 ∧ aggregates.account_tx_count > 5 then ["High Deviation"] else []) ++
  (if scaled_score ≥ 7/10 then ["ML Risk"] else [])

/-- Reason resolution of `detection_logic.py` lines 54–58: `None` on an empty
candidate list, else "ML Anomaly" if ML Risk fired, else "High Deviation from
Avg" if High Deviation fired, else the " & "-join of the candidates. -/
def resolve_reason (reasons : List String) : Option String :=
  if reasons = [] then none
  else if "ML Risk" ∈ reasons then some "ML Anomaly"
  else if "High Deviation" ∈ reasons then some "High Deviation from Avg"
  else some (String.intercalate " & " reasons)

/-- Function `score_transaction` (`detection_logic.py` lines 24–60).  The Python
function raises `RuntimeError` when the model is falsy or either bound is
`None`; failure is modelled with `Except`.  The absent model / absent bounds
are `Option` arguments. -/
def score_transaction (transaction : Transaction) (aggregates : Aggregates)
    (model : Option Model) (min_score max_score : Option ℚ) :
    Except String (ℚ × Option String) :=
  match model, min_score, max_score with
  | some m, some minS, some maxS =>
    let deviation := deviation_of transaction.amount aggregates.account_avg_amount
    let raw_score := m.decision_function transaction.amount
      aggregates.account_avg_amount deviation
    let scaled_score := 1 - (raw_score - minS) / (maxS - minS)
    Except.ok (scaled_score,
      resolve_reason (rule_reasons transaction aggregates deviation scaled_score))
  | _, _, _ => Except.error "Model or score boundaries are not provided."

/-! ## Notifier (`notification_service.py`) -/

/-- Enum `AlertSeverity` (`notification_service.py` lines 58–63). -/
inductive AlertSeverity
  | INFO
  | WARNING
  | HIGH
  | CRITICAL
deriving DecidableEq

/-- Default `CRITICAL_RISK_THRESHOLD = 0.9` (`notification_service.py` line 50). -/
def CRITICAL_RISK_THRESHOLD : ℚ := 9/10

/-- Default `HIGH_RISK_THRESHOLD = 0.8` (`notification_service.py` line 49). -/
def HIGH_RISK_THRESHOLD : ℚ := 8/10

/-- Method `determine_severity` of `NotificationService` (`notification_service.py`
lines 104–122), at the default thresholds (0.9, 0.8, 5000.0). -/
def determine_severity (anomaly_score amount : ℚ) : AlertSeverity :=
  if anomaly_score ≥ CRITICAL_RISK_THRESHOLD then AlertSeverity.CRITICAL
  else if anomaly_score ≥ HIGH_RISK_THRESHOLD ∨ amount ≥ HIGH_VALUE_THRESHOLD then
    AlertSeverity.HIGH
  else if anomaly_score ≥ 6/10 then AlertSeverity.WARNING
  else AlertSeverity.INFO

/-- Enum `NotificationChannel` (`notification_service.py` lines 66–72). -/
inductive NotificationChannel
  | slack
  | discord
  | teams
  | email
  | webhook
deriving DecidableEq

/-- The `.value` string of each channel enum member. -/
def channelName : NotificationChannel → String
  | NotificationChannel.slack => "slack"
  | NotificationChannel.discord => "discord"
  | NotificationChannel.teams => "teams"
  | NotificationChannel.email => "email"
  | NotificationChannel.webhook => "webhook"

/-- The external transports: `attempt c n` is the success of the n-th
network attempt on channel `c` (HTTP POST / SMTP send). -/
structure ChannelTransport where
  attempt : NotificationChannel → ℕ → Bool

/-- One channel-specific send as seen by the dispatch loop.  The four
webhook-style senders carry `@retry(stop=stop_after_attempt(3), ...)`
(`notification_service.py` lines 124, 141, 158, 175): they succeed iff one of
three attempts succeeds, and raise after exhausting the retries (raising is
the `false` outcome here, caught by the `except` of the dispatch loop).
`_send_email_notification` (lines 193–221) has no retry decorator and catches
its own exception, returning `False`: a single attempt. -/
def channel_send (t : ChannelTransport) (c : NotificationChannel) : Bool :=
  match c with
  | NotificationChannel.email => t.attempt NotificationChannel.email 1
  | c => t.attempt c 1 || t.attempt c 2 || t.attempt c 3

/-- Python `dict` assignment `results[name] = v`: overwrite an existing key
in place, otherwise append. -/
def dictInsert (m : List (String × Bool)) (k : String) (v : Bool) :
    List (String × Bool) :=
  if m.any (fun p => p.1 == k) then
    m.map (fun p => if p.1 = k then (k, v) else p)
  else m ++ [(k, v)]

/-- Lookup in a Python-dict-as-association-list (first matching key). -/
def lookupKey (m : List (String × Bool)) (k : String) : Option Bool :=
  match m with
  | [] => none
  | p :: rest => if p.1 = k then some p.2 else lookupKey rest k

/-- The `for channel in target_channels` loop of `send_fraud_alert`
(`notification_service.py` lines 396–442).  A channel is dispatched when it
is in the enabled set; its outcome (`channel_send`) is recorded in `results`
under its name — `False` both when the sender returns `False` (email) and
when it raises after exhausted retries (the `except` branch, line 442).  The
second component records the channels actually dispatched, in order. -/
def dispatch (enabled : List NotificationChannel) (t : ChannelTransport) :
    List NotificationChannel → List (String × Bool) → List NotificationChannel →
    List (String × Bool) × List NotificationChannel
  | [], results, attempted => (results, attempted)
  | c :: rest, results, attempted =>
    if c ∈ enabled then
      dispatch enabled t rest
        (dictInsert results (channelName c) (channel_send t c)) (attempted ++ [c])
    else
      dispatch enabled t rest results attempted

/-- Method `send_fraud_alert` of `NotificationService` (`notification_service.py`
lines 367–446).  Severity is computed from the score and the transaction
amount; severities below HIGH return the empty result map before any channel
is considered (line 387–389).  `target_channels = channels if channels else
self.enabled_channels` (line 392): a `None` argument and an empty list both
fall back to the enabled channels (an empty Python list is falsy).  Returns
the result map together with the list of channels actually dispatched. -/
def send_fraud_alert (enabled : List NotificationChannel) (t : ChannelTransport)
    (amount anomaly_score : ℚ) (channels : Option (List NotificationChannel)) :
    List (String × Bool) × List NotificationChannel :=
  let severity := determine_severity anomaly_score amount
  if severity = AlertSeverity.HIGH ∨ severity = AlertSeverity.CRITICAL then
    let target := match channels with
      | some (c :: cs) => c :: cs
      | _ => enabled
    dispatch enabled t target [] []
  else ([], [])

/-! ## Ingestion Pipeline (`detection_service.py`) -/

/-- The `amount` value carried by an incoming event: either something
`float()` accepts (modelled by its rational value) or not. -/
inductive AmountVal
  | num (q : ℚ)
  | nonNumeric
deriving DecidableEq

/-- An event as it arrives from the broker: every required field may be
missing or `None` (both modelled as `none`). -/
structure RawTransaction where
  transaction_id : Option String
  account_id : Option String
  amount : Option AmountVal
  merchant_category : Option String
  location : Option String
  timestamp : Option String

/-- Function `validate_transaction` (`detection_service.py` lines 150–169): the
required fields are checked for presence/non-null in source order, then the
amount is converted with `float()` and required positive.  The error strings
abbreviate the Python f-strings (constant prefixes, no interpolation). -/
def validate_transaction (t : RawTransaction) : Bool × String :=
  if t.transaction_id = none then (false, "Missing required field: transaction_id")
  else if t.account_id = none then (false, "Missing required field: account_id")
  else if t.amount = none then (false, "Missing required field: amount")
  else if t.merchant_category = none then (false, "Missing required field: merchant_category")
  else if t.location = none then (false, "Missing required field: location")
  else if t.timestamp = none then (false, "Missing required field: timestamp")
  else
    match t.amount with
    | some (AmountVal.num a) =>
      if a ≤ 0 then (false, "Invalid amount (must be positive)") else (true, "")
    | _ => (false, "Invalid amount format")

/-- The observable actions of `process_transaction`, in program order:
counter increments, the notification attempt, the database insert. -/
inductive Event
  | processedCounter
  | errorCounter
  | anomalyCounter
  | notify (ok : Bool)
  | insert
deriving DecidableEq

/-- The detection columns written onto the record before the insert
(`detection_service.py` lines 223–227). -/
structure PersistedRecord where
  ml_anomaly_score : ℚ
  alert_reason : Option String
  is_anomaly : ℕ
  status : Option String
deriving DecidableEq

/-- The view the scorer has of a validated event (fields are present once
`validate_transaction` passed; the defaults are dead code on that path). -/
def txOf (t : RawTransaction) : Transaction :=
  { amount := match t.amount with
      | some (AmountVal.num q) => q
      | _ => 0
    merchant_category := t.merchant_category.getD ""
    location := t.location.getD "" }

/-- Function `process_transaction` (`detection_service.py` lines 172–312) as a trace
of observable events plus the record the `df.to_sql` insert persists (if
any).  `TRANSACTIONS_PROCESSED.inc()` fires first (line 177); a validation
failure increments the error counter and returns without inserting (lines
184–191); a scoring exception falls back to `(0.0, None)` (lines 214–221);
on an anomaly the anomaly counter fires and the notifier is invoked inside
`try/except` (lines 230–258) — `notifyFails` is whether `send_fraud_alert`
raises; then the insert runs (line 274) — `insertFails` is whether it raises
`SQLAlchemyError`, in which case the error counter fires and the write is
rolled back (lines 293–300). -/
def process_transaction (t : RawTransaction) (aggregates : Aggregates)
    (model : Option Model) (min_score max_score : Option ℚ)
    (notifyFails insertFails : Bool) : List Event × Option PersistedRecord :=
  let ev0 : List Event := [Event.processedCounter]
  if (validate_transaction t).1 = false then
    (ev0 ++ [Event.errorCounter], none)
  else
    let sr := match score_transaction (txOf t) aggregates model min_score max_score with
      | Except.ok r => r
      | Except.error _ => (0, none)
    let record : PersistedRecord :=
      { ml_anomaly_score := sr.1
        alert_reason := sr.2
        is_anomaly := if sr.2.isSome then 1 else 0
        status := if sr.2.isSome then some "NEW" else none }
    let ev1 := if sr.2.isSome then
        ev0 ++ [Event.anomalyCounter, Event.notify (!notifyFails)]
      else ev0
    if insertFails then (ev1 ++ [Event.errorCounter], none)
    else (ev1 ++ [Event.insert], some record)

/-- Whether an event is the notification attempt. -/
def isNotifyEvent : Event → Bool
  | Event.notify _ => true
  | _ => false

/-- Whether an event is the database insert. -/
def isInsertEvent : Event → Bool
  | Event.insert => true
  | _ => false

/-- Some insert occurs strictly before some notification attempt. -/
def insertPrecedesNotify : List Event → Bool
  | [] => false
  | e :: rest => (isInsertEvent e && rest.any isNotifyEvent) || insertPrecedesNotify rest

/-- Some notification attempt occurs strictly before some insert. -/
def notifyPrecedesInsert : List Event → Bool
  | [] => false
  | e :: rest => (isNotifyEvent e && rest.any isInsertEvent) || notifyPrecedesInsert rest

/-! ## Cache Layer (`cache_wrapper.py`) -/

/-- A keyword-argument value as passed to `cache_key` (ints and strings,
the kinds the API passes: pagination numbers and status filters). -/
inductive PValue
  | int (n : ℤ)
  | str (s : String)
deriving DecidableEq

/-- The Python `<=` on the values, as `sorted` would compare them when two
items share a key.  With the distinct keyword names of a `**params` dict the
value comparison is never reached; ints are ordered before strings here only
to make the order total. -/
def pvLe : PValue → PValue → Prop
  | PValue.int a, PValue.int b => a ≤ b
  | PValue.int _, PValue.str _ => True
  | PValue.str _, PValue.int _ => False
  | PValue.str a, PValue.str b => a ≤ b

instance : DecidableRel pvLe
  | PValue.int a, PValue.int b => inferInstanceAs (Decidable (a ≤ b))
  | PValue.int _, PValue.str _ => inferInstanceAs (Decidable True)
  | PValue.str _, PValue.int _ => inferInstanceAs (Decidable False)
  | PValue.str a, PValue.str b => inferInstanceAs (Decidable (a ≤ b))

/-- The tuple order used by `sorted(params.items())` (`cache_wrapper.py`
line 354): lexicographic on (name, value). -/
def paramLe (a b : String × PValue) : Prop :=
  a.1 < b.1 ∨ (a.1 = b.1 ∧ pvLe a.2 b.2)

instance : DecidableRel paramLe := fun a b => by
  unfold paramLe; infer_instance

/-- Sorting step `sorted(params.items())` (`cache_wrapper.py` line 354). -/
def sortedParams (params : List (String × PValue)) : List (String × PValue) :=
  List.insertionSort paramLe params

/-- Function `cache_key` (`cache_wrapper.py` lines 338–360): sort the parameter
items, serialize with `json.dumps`, hash with `hashlib.md5(...).hexdigest()`,
and return `f"{endpoint}:{param_hash}"`.  The two library calls are the
explicit parameters `jsonDumps` and `md5hexdigest`. -/
def cache_key (md5hexdigest : String → String)
    (jsonDumps : List (String × PValue) → String)
    (endpoint : String) (params : List (String × PValue)) : String :=
  endpoint ++ ":" ++ md5hexdigest (jsonDumps (sortedParams params))

/-- Redis KEYS glob matching, restricted to the constructs used by the
patterns of this repository: `*` (any sequence), `?` (any one char), literal chars. -/
def globMatch (pat s : List Char) : Bool :=
  match pat, s with
  | [], [] => true
  | [], _ :: _ => false
  | p :: ps, s =>
    if p = '*' then
      match s with
      | [] => globMatch ps []
      | _ :: cs => globMatch ps s || globMatch (p :: ps) cs
    else
      match s with
      | [] => false
      | c :: cs => (p == '?' || p == c) && globMatch ps cs
termination_by (pat.length, s.length)

/-- Method `invalidate_pattern` of `CacheService` (`cache_wrapper.py` lines 233–257) on
a store modelled as an association list: `self.client.keys(pattern)` then
`self.client.delete(*keys)`.  Returns the surviving store and the number of
deleted keys. -/
def invalidate_pattern (pattern : String) (store : List (String × String)) :
    List (String × String) × ℕ :=
  (store.filter (fun kv => !(globMatch pattern.toList kv.1.toList)),
   (store.filter (fun kv => globMatch pattern.toList kv.1.toList)).length)

/-- Function `invalidate_anomalies_cache` (`cache_wrapper.py` lines 363–372):
`cache.invalidate_pattern("anomalies:*")`. -/
def invalidate_anomalies_cache (store : List (String × String)) :
    List (String × String) × ℕ :=
  invalidate_pattern "anomalies:*" store

/-! ## Concrete instances used by the end-to-end claims -/

/-- The transaction of the end-to-end scenario:
`{amount: 9500, merchant_category: "Gambling", location: "Turku"}`. -/
def c1tx : Transaction := ⟨9500, "Gambling", "Turku"⟩

/-- The account history of the end-to-end scenario:
`{count: 10, avg_amount: 150}`. -/
def c1aggs : Aggregates := ⟨10, 150⟩

/-- The scaled ML score of the scenario, as a function of the model and the
bounds: `1 - (raw - min_score) / (max_score - min_score)` at the scenario
features. -/
def c1scaled (m : Model) (minS maxS : ℚ) : ℚ :=
  1 - (m.decision_function c1tx.amount c1aggs.account_avg_amount
        (deviation_of c1tx.amount c1aggs.account_avg_amount) - minS) / (maxS - minS)

/-- A valid, anomalous broker event: the scenario transaction with all the
required fields present. -/
def c3raw : RawTransaction :=
  { transaction_id := some "TX1"
    account_id := some "ACC1"
    amount := some (AmountVal.num 9500)
    merchant_category := some "Gambling"
    location := some "Turku"
    timestamp := some "2024-01-01T00:00:00" }

/-! ## Theorems -/

/-- Helper: in the end-to-end scenario all three deterministic rules fire:
the candidate list is High Value, Suspicious Combo, High Deviation, plus ML
Risk exactly when the scaled score reaches `0.7`. -/
theorem c1_rule_reasons (scaled : ℚ) :
    rule_reasons c1tx c1aggs (deviation_of c1tx.amount c1aggs.account_avg_amount) scaled =
      ["High Value", "Suspicious Combo", "High Deviation"] ++
        (if scaled ≥ 7/10 then ["ML Risk"] else []) := by
  have h1 : c1tx.amount ≥ HIGH_VALUE_THRESHOLD := by
    norm_num [c1tx, HIGH_VALUE_THRESHOLD]
  have h2 : c1tx.merchant_category = SUSPICIOUS_MERCHANT ∧
      c1tx.location ≠ STANDARD_LOCATION := by
    constructor <;> decide
  have h3 : deviation_of c1tx.amount c1aggs.account_avg_amount ≥ 5 ∧
      c1aggs.account_tx_count > 5 := by
    constructor
    · show deviation_of (9500 : ℚ) 150 ≥ 5
      unfold deviation_of
      rw [if_pos (by norm_num : (150 : ℚ) > 0), epsilon]
      norm_num
    · decide
  simp [rule_reasons, if_pos h1, if_pos h2, if_pos h3]

/-- C1 counterexample: in the end-to-end scenario, with the model returning
decision score 1 on bounds (0, 1) — so the scaled ML score is 0, below the
0.7 ML-risk threshold — the reported alert reason is "High Deviation from
Avg", not the joined string "High Value & Suspicious Combo": with history
count 10 and average 150 the High Deviation rule also fires (deviation
about 62.3) and takes priority over the join. -/
theorem c1_counterexample :
    (0 : ℚ) < 1 ∧
    score_transaction c1tx c1aggs (some ⟨fun _ _ _ => 1⟩) (some 0) (some 1) =
      Except.ok (0, some "High Deviation from Avg") ∧
    ¬ ((0 : ℚ) ≥ 7/10) ∧
    some "High Deviation from Avg" ≠ some "High Value & Suspicious Combo" := by
  refine ⟨by norm_num, ?_, by norm_num, by decide⟩
  have e2 : resolve_reason (["High Value", "Suspicious Combo", "High Deviation"] ++ []) =
      some "High Deviation from Avg" := by decide
  simp only [score_transaction, c1_rule_reasons]
  rw [if_neg (by norm_num : ¬ ((1 : ℚ) - (1 - 0) / (1 - 0) ≥ 7/10)), e2]
  norm_num

/-- C1 (amended): in the end-to-end scenario the High Value and Suspicious
Combo rule candidates fire for every model and bounds with
`min_score < max_score`, but the High Deviation candidate fires as well, so
the reported alert reason is "High Deviation from Avg" whenever the scaled
ML score is below the 0.7 threshold and "ML Anomaly" whenever it reaches
it — never the joined string. -/
theorem c1_scenario (m : Model) (minS maxS : ℚ) (hb : minS < maxS) :
    "High Value" ∈ rule_reasons c1tx c1aggs
        (deviation_of c1tx.amount c1aggs.account_avg_amount) (c1scaled m minS maxS) ∧
    "Suspicious Combo" ∈ rule_reasons c1tx c1aggs
        (deviation_of c1tx.amount c1aggs.account_avg_amount) (c1scaled m minS maxS) ∧
    score_transaction c1tx c1aggs (some m) (some minS) (some maxS) =
      Except.ok (c1scaled m minS maxS,
        some (if c1scaled m minS maxS ≥ 7/10 then "ML Anomaly"
              else "High Deviation from Avg")) := by
  refine ⟨?_, ?_, ?_⟩
  · rw [c1_rule_reasons]
    exact List.mem_append_left _ (by decide)
  · rw [c1_rule_reasons]
    exact List.mem_append_left _ (by decide)
  · have e1 : resolve_reason (["High Value", "Suspicious Combo", "High Deviation"] ++
        ["ML Risk"]) = some "ML Anomaly" := by decide
    have e2 : resolve_reason (["High Value", "Suspicious Combo", "High Deviation"] ++
        []) = some "High Deviation from Avg" := by decide
    simp only [score_transaction, c1_rule_reasons, c1scaled]
    by_cases hml : (1 - (m.decision_function c1tx.amount c1aggs.account_avg_amount
        (deviation_of c1tx.amount c1aggs.account_avg_amount) - minS) / (maxS - minS)) ≥ 7/10
    · rw [if_pos hml, if_pos hml, e1]
    · rw [if_neg hml, if_neg hml, e2]

/-- Witness for C1 (amended): the scenario at the model returning constant
decision score 1 on bounds (0, 1). -/
theorem c1_scenario_witness :
    (0 : ℚ) < 1 ∧
    "High Value" ∈ rule_reasons c1tx c1aggs
        (deviation_of c1tx.amount c1aggs.account_avg_amount)
        (c1scaled ⟨fun _ _ _ => 1⟩ 0 1) :=
  ⟨by norm_num, (c1_scenario ⟨fun _ _ _ => 1⟩ 0 1 (by norm_num)).1⟩

/-- C2 counterexample: nothing clamps the normalized score.  With bounds
(0, 1) (so `min_bound < max_bound`) and a model whose raw decision score is
-1 — outside the bounds — `score_transaction` returns scaled score 2, which
is not in [0, 1]. -/
theorem c2_counterexample :
    (0 : ℚ) < 1 ∧
    score_transaction ⟨10, "Food", "Helsinki"⟩ ⟨0, 0⟩
        (some ⟨fun _ _ _ => -1⟩) (some 0) (some 1) =
      Except.ok (2, some "ML Anomaly") ∧
    ¬ ((2 : ℚ) ≤ 1) := by
  refine ⟨by norm_num, ?_, by norm_num⟩
  norm_num [score_transaction, deviation_of, rule_reasons, resolve_reason, epsilon,
    HIGH_VALUE_THRESHOLD, SUSPICIOUS_MERCHANT, STANDARD_LOCATION]

/-- C2 (amended): whenever the raw decision score lies within the
training-time bounds and `min_score < max_score`, the returned scaled risk
score lies in [0, 1]; a raw score outside the bounds can leave the interval
(see the counterexample). -/
theorem scaled_score_in_unit_interval (transaction : Transaction)
    (aggregates : Aggregates) (m : Model) (minS maxS : ℚ) (hb : minS < maxS)
    (hlo : minS ≤ m.decision_function transaction.amount aggregates.account_avg_amount
      (deviation_of transaction.amount aggregates.account_avg_amount))
    (hhi : m.decision_function transaction.amount aggregates.account_avg_amount
      (deviation_of transaction.amount aggregates.account_avg_amount) ≤ maxS) :
    ∃ r, score_transaction transaction aggregates (some m) (some minS) (some maxS) =
      Except.ok (1 - (m.decision_function transaction.amount aggregates.account_avg_amount
          (deviation_of transaction.amount aggregates.account_avg_amount) - minS) /
        (maxS - minS), r) ∧
      0 ≤ 1 - (m.decision_function transaction.amount aggregates.account_avg_amount
          (deviation_of transaction.amount aggregates.account_avg_amount) - minS) /
        (maxS - minS) ∧
      1 - (m.decision_function transaction.amount aggregates.account_avg_amount
          (deviation_of transaction.amount aggregates.account_avg_amount) - minS) /
        (maxS - minS) ≤ 1 := by
  set raw := m.decision_function transaction.amount aggregates.account_avg_amount
    (deviation_of transaction.amount aggregates.account_avg_amount) with hraw
  refine ⟨_, rfl, ?_, ?_⟩
  · have h1 : (raw - minS) / (maxS - minS) ≤ 1 := by
      rw [div_le_one (by linarith)]
      linarith
    linarith
  · have h0 : 0 ≤ (raw - minS) / (maxS - minS) :=
      div_nonneg (by linarith) (by linarith)
    linarith

/-- Witness for C2 (amended): a raw score of 1/2 inside bounds (0, 1). -/
theorem scaled_score_in_unit_interval_witness :
    (0 : ℚ) < 1 ∧
    (0 : ℚ) ≤ (Model.mk fun _ _ _ => 1/2).decision_function 10 0 (deviation_of 10 0) ∧
    (Model.mk fun _ _ _ => 1/2).decision_function 10 0 (deviation_of 10 0) ≤ 1 ∧
    ∃ r, score_transaction ⟨10, "Food", "Helsinki"⟩ ⟨0, 0⟩
        (some (Model.mk fun _ _ _ => 1/2)) (some 0) (some 1) =
      Except.ok (1 - ((Model.mk fun _ _ _ => 1/2).decision_function 10 0
          (deviation_of 10 0) - 0) / (1 - 0), r) ∧
      0 ≤ 1 - ((Model.mk fun _ _ _ => 1/2).decision_function 10 0
          (deviation_of 10 0) - 0) / (1 - 0) ∧
      1 - ((Model.mk fun _ _ _ => 1/2).decision_function 10 0
          (deviation_of 10 0) - 0) / (1 - 0) ≤ 1 :=
  ⟨by norm_num, by show (0 : ℚ) ≤ 1/2; norm_num, by show (1/2 : ℚ) ≤ 1; norm_num,
    scaled_score_in_unit_interval ⟨10, "Food", "Helsinki"⟩ ⟨0, 0⟩
      (Model.mk fun _ _ _ => 1/2) 0 1 (by norm_num)
      (by show (0 : ℚ) ≤ 1/2; norm_num) (by show (1/2 : ℚ) ≤ 1; norm_num)⟩

/-- C3 counterexample: on a concrete valid anomalous event the processing
trace is processed-counter, anomaly-counter, notification, insert — the
trace contains both a notification attempt and the insert, yet no insert
precedes the notification: `process_transaction` invokes the Notifier
before, not after, the persistence insert. -/
theorem c3_counterexample :
    (process_transaction c3raw c1aggs (some ⟨fun _ _ _ => 1⟩)
        (some 0) (some 1) false false).1 =
      [Event.processedCounter, Event.anomalyCounter, Event.notify true, Event.insert] ∧
    Event.notify true ∈ (process_transaction c3raw c1aggs (some ⟨fun _ _ _ => 1⟩)
        (some 0) (some 1) false false).1 ∧
    Event.insert ∈ (process_transaction c3raw c1aggs (some ⟨fun _ _ _ => 1⟩)
        (some 0) (some 1) false false).1 ∧
    insertPrecedesNotify (process_transaction c3raw c1aggs (some ⟨fun _ _ _ => 1⟩)
        (some 0) (some 1) false false).1 = false := by
  have hv : (validate_transaction c3raw).1 = true := by
    norm_num [validate_transaction, c3raw]
    decide
  have e2 : resolve_reason (["High Value", "Suspicious Combo", "High Deviation"] ++ []) =
      some "High Deviation from Avg" := by decide
  have hs : score_transaction (txOf c3raw) c1aggs (some ⟨fun _ _ _ => 1⟩)
      (some 0) (some 1) = Except.ok (0, some "High Deviation from Avg") := by
    rw [show txOf c3raw = c1tx from rfl]
    simp only [score_transaction, c1_rule_reasons]
    rw [if_neg (by norm_num : ¬ ((1 : ℚ) - (1 - 0) / (1 - 0) ≥ 7/10)), e2]
    norm_num
  have htr : (process_transaction c3raw c1aggs (some ⟨fun _ _ _ => 1⟩)
      (some 0) (some 1) false false).1 =
      [Event.processedCounter, Event.anomalyCounter, Event.notify true, Event.insert] := by
    simp [process_transaction, hv, hs]
  refine ⟨htr, ?_, ?_, ?_⟩ <;> rw [htr] <;> decide

/-- C3 (amended): for every valid anomalous event whose insert does not
fail, `process_transaction` invokes the Notifier before the persistence
insert (not after it, as claimed), and a failure raised during notification
is caught and never prevents the record from being persisted: the persisted
record is the same whether or not the notification fails. -/
theorem process_notify_before_insert (t : RawTransaction) (aggregates : Aggregates)
    (model : Option Model) (minS maxS : Option ℚ) (notifyFails : Bool)
    (s : ℚ) (reason : String)
    (hv : (validate_transaction t).1 = true)
    (hs : score_transaction (txOf t) aggregates model minS maxS =
      Except.ok (s, some reason)) :
    (process_transaction t aggregates model minS maxS notifyFails false).1 =
      [Event.processedCounter, Event.anomalyCounter, Event.notify (!notifyFails),
        Event.insert] ∧
    notifyPrecedesInsert
      (process_transaction t aggregates model minS maxS notifyFails false).1 = true ∧
    insertPrecedesNotify
      (process_transaction t aggregates model minS maxS notifyFails false).1 = false ∧
    (process_transaction t aggregates model minS maxS notifyFails false).2 =
      some ⟨s, some reason, 1, some "NEW"⟩ ∧
    (process_transaction t aggregates model minS maxS true false).2 =
      (process_transaction t aggregates model minS maxS false false).2 := by
  have hproc : ∀ nf : Bool,
      process_transaction t aggregates model minS maxS nf false =
      ([Event.processedCounter, Event.anomalyCounter, Event.notify (!nf), Event.insert],
        some ⟨s, some reason, 1, some "NEW"⟩) := by
    intro nf
    simp [process_transaction, hv, hs]
  refine ⟨?_, ?_, ?_, ?_, ?_⟩ <;>
    simp [hproc, notifyPrecedesInsert, insertPrecedesNotify, isNotifyEvent, isInsertEvent]

/-- Witness for C3 (amended): the concrete valid anomalous event, with a
failing notification — the record is persisted all the same. -/
theorem process_notify_before_insert_witness :
    (validate_transaction c3raw).1 = true ∧
    (process_transaction c3raw c1aggs (some ⟨fun _ _ _ => 1⟩)
        (some 0) (some 1) true false).1 =
      [Event.processedCounter, Event.anomalyCounter, Event.notify false,
        Event.insert] ∧
    (process_transaction c3raw c1aggs (some ⟨fun _ _ _ => 1⟩)
        (some 0) (some 1) true false).2 =
      some ⟨0, some "High Deviation from Avg", 1, some "NEW"⟩ := by
  have hv : (validate_transaction c3raw).1 = true := by
    norm_num [validate_transaction, c3raw]
    decide
  have e2 : resolve_reason (["High Value", "Suspicious Combo", "High Deviation"] ++ []) =
      some "High Deviation from Avg" := by decide
  have hs : score_transaction (txOf c3raw) c1aggs (some ⟨fun _ _ _ => 1⟩)
      (some 0) (some 1) = Except.ok (0, some "High Deviation from Avg") := by
    rw [show txOf c3raw = c1tx from rfl]
    simp only [score_transaction, c1_rule_reasons]
    rw [if_neg (by norm_num : ¬ ((1 : ℚ) - (1 - 0) / (1 - 0) ≥ 7/10)), e2]
    norm_num
  have h := process_notify_before_insert c3raw c1aggs (some ⟨fun _ _ _ => 1⟩)
    (some 0) (some 1) true 0 "High Deviation from Avg" hv hs
  exact ⟨hv, h.1, h.2.2.2.1⟩

/-- C4: for every transaction and aggregates, `score_transaction` called with
an absent model, or an absent min bound, or an absent max bound, fails with
the configuration error and never returns a score. -/
theorem score_transaction_config_error (transaction : Transaction)
    (aggregates : Aggregates) (model : Option Model) (min_score max_score : Option ℚ)
    (h : model = none ∨ min_score = none ∨ max_score = none) :
    score_transaction transaction aggregates model min_score max_score =
      Except.error "Model or score boundaries are not provided." := by
  cases model <;> cases min_score <;> cases max_score <;> simp_all [score_transaction]

/-- Witness for C4: the configuration error at a concrete transaction with
the model absent. -/
theorem score_transaction_config_error_witness :
    ((none : Option Model) = none ∨ (some 0 : Option ℚ) = none ∨ (some 1 : Option ℚ) = none) ∧
    score_transaction ⟨9500, "Gambling", "Turku"⟩ ⟨10, 150⟩ none (some 0) (some 1) =
      Except.error "Model or score boundaries are not provided." :=
  ⟨Or.inl rfl, score_transaction_config_error _ _ _ _ _ (Or.inl rfl)⟩

/-- C5: with `account_avg_amount = 0` the deviation feature is `0`, the High
Deviation rule candidate cannot fire, and scoring still returns a result
(no division error) for every model and bounds. -/
theorem score_transaction_zero_avg (transaction : Transaction)
    (aggregates : Aggregates) (m : Model) (minS maxS : ℚ)
    (h : aggregates.account_avg_amount = 0) :
    deviation_of transaction.amount aggregates.account_avg_amount = 0 ∧
    (∀ scaled : ℚ, "High Deviation" ∉ rule_reasons transaction aggregates
        (deviation_of transaction.amount aggregates.account_avg_amount) scaled) ∧
    ∃ s r, score_transaction transaction aggregates (some m) (some minS) (some maxS) =
      Except.ok (s, r) := by
  have hdev : deviation_of transaction.amount aggregates.account_avg_amount = 0 := by
    simp [deviation_of, h]
  refine ⟨hdev, ?_, ⟨_, _, rfl⟩⟩
  intro scaled
  rw [hdev]
  have h5 : ¬((0 : ℚ) ≥ 5 ∧ aggregates.account_tx_count > 5) := by
    rintro ⟨h5, -⟩
    norm_num at h5
  simp only [rule_reasons, if_neg h5]
  split_ifs <;> decide

/-- Witness for C5: a concrete account with zero average. -/
theorem score_transaction_zero_avg_witness :
    (Aggregates.mk 3 0).account_avg_amount = 0 ∧
    deviation_of (9500 : ℚ) (Aggregates.mk 3 0).account_avg_amount = 0 :=
  ⟨rfl, (score_transaction_zero_avg ⟨9500, "Gambling", "Turku"⟩ ⟨3, 0⟩
    ⟨fun _ _ _ => 1⟩ 0 1 rfl).1⟩

/-- C8: every event missing a required field (null included) or carrying a
non-positive or non-numeric amount fails validation, and
`process_transaction` drops it: the processing-error counter is incremented
exactly once, no database insert occurs, and nothing is persisted. -/
theorem invalid_event_dropped (t : RawTransaction) (aggregates : Aggregates)
    (model : Option Model) (minS maxS : Option ℚ) (notifyFails insertFails : Bool)
    (hbad : t.transaction_id = none ∨ t.account_id = none ∨ t.amount = none ∨
      t.merchant_category = none ∨ t.location = none ∨ t.timestamp = none ∨
      t.amount = some AmountVal.nonNumeric ∨
      ∃ q, t.amount = some (AmountVal.num q) ∧ q ≤ 0) :
    (validate_transaction t).1 = false ∧
    (process_transaction t aggregates model minS maxS notifyFails insertFails).1.count
      Event.errorCounter = 1 ∧
    Event.insert ∉
      (process_transaction t aggregates model minS maxS notifyFails insertFails).1 ∧
    (process_transaction t aggregates model minS maxS notifyFails insertFails).2 =
      none := by
  have hv : (validate_transaction t).1 = false := by
    unfold validate_transaction
    rcases hbad with h | h | h | h | h | h | h | ⟨q, hq, hq0⟩ <;>
      simp_all <;> split_ifs <;> simp_all
  have hp : process_transaction t aggregates model minS maxS notifyFails insertFails =
      ([Event.processedCounter, Event.errorCounter], none) := by
    simp [process_transaction, hv]
  refine ⟨hv, ?_, ?_, ?_⟩ <;> rw [hp] <;> decide

/-- Witness for C8: the scenario event with the amount removed is dropped
with exactly one error increment and no insert. -/
theorem invalid_event_dropped_witness :
    ({ c3raw with amount := none } : RawTransaction).amount = none ∧
    (validate_transaction { c3raw with amount := none }).1 = false ∧
    (process_transaction { c3raw with amount := none } c1aggs none none none
      false false).1.count Event.errorCounter = 1 ∧
    Event.insert ∉ (process_transaction { c3raw with amount := none } c1aggs none
      none none false false).1 := by
  have h := invalid_event_dropped { c3raw with amount := none } c1aggs none none none
    false false (Or.inr (Or.inr (Or.inl rfl)))
  exact ⟨rfl, h.1, h.2.1, h.2.2.1⟩

/-- Helper: the dispatch loop attempts exactly the enabled channels among
the target list, in order, appended to the accumulator. -/
theorem dispatch_attempted (enabled : List NotificationChannel) (t : ChannelTransport) :
    ∀ (target : List NotificationChannel) (results : List (String × Bool))
      (attempted : List NotificationChannel),
      (dispatch enabled t target results attempted).2 =
        attempted ++ target.filter (fun c => c ∈ enabled) := by
  intro target
  induction target with
  | nil =>
    intro results attempted
    simp [dispatch]
  | cons c rest ih =>
    intro results attempted
    by_cases hc : c ∈ enabled
    · simp [dispatch, hc, ih, List.filter_cons]
    · simp [dispatch, hc, ih, List.filter_cons]

/-- C6: severity is CRITICAL iff the score reaches 0.9; else HIGH iff the
score reaches 0.8 or the amount reaches 5000; else WARNING iff the score
reaches 0.6; else INFO.  `send_fraud_alert` dispatches to the (enabled)
target channels exactly when severity is HIGH or CRITICAL, and returns the
empty result map with no channel attempted otherwise.  In particular score
0.95 with amount 50 is CRITICAL and triggers delivery on an enabled channel,
and score 0.5 with amount 50 is INFO and triggers no delivery attempt. -/
theorem severity_thresholds_and_delivery_gate :
    (∀ s a : ℚ,
      (determine_severity s a = AlertSeverity.CRITICAL ↔ 9/10 ≤ s) ∧
      (determine_severity s a = AlertSeverity.HIGH ↔
        s < 9/10 ∧ (8/10 ≤ s ∨ 5000 ≤ a)) ∧
      (determine_severity s a = AlertSeverity.WARNING ↔
        s < 9/10 ∧ s < 8/10 ∧ a < 5000 ∧ 6/10 ≤ s) ∧
      (determine_severity s a = AlertSeverity.INFO ↔
        s < 9/10 ∧ s < 8/10 ∧ a < 5000 ∧ s < 6/10)) ∧
    (∀ (enabled : List NotificationChannel) (t : ChannelTransport) (s a : ℚ)
        (ch : Option (List NotificationChannel)),
      (¬ (determine_severity s a = AlertSeverity.HIGH ∨
          determine_severity s a = AlertSeverity.CRITICAL) →
        send_fraud_alert enabled t a s ch = ([], [])) ∧
      ((determine_severity s a = AlertSeverity.HIGH ∨
          determine_severity s a = AlertSeverity.CRITICAL) →
        (send_fraud_alert enabled t a s ch).2 =
          (match ch with
            | some (c :: cs) => c :: cs
            | _ => enabled).filter (fun c => c ∈ enabled))) ∧
    determine_severity (95/100) 50 = AlertSeverity.CRITICAL ∧
    (∀ t : ChannelTransport,
      (send_fraud_alert [NotificationChannel.slack] t 50 (95/100) none).2 =
        [NotificationChannel.slack]) ∧
    determine_severity (1/2) 50 = AlertSeverity.INFO ∧
    (∀ t : ChannelTransport,
      send_fraud_alert [NotificationChannel.slack] t 50 (1/2) none = ([], [])) := by
  have hsev : ∀ s a : ℚ,
      (determine_severity s a = AlertSeverity.CRITICAL ↔ 9/10 ≤ s) ∧
      (determine_severity s a = AlertSeverity.HIGH ↔
        s < 9/10 ∧ (8/10 ≤ s ∨ 5000 ≤ a)) ∧
      (determine_severity s a = AlertSeverity.WARNING ↔
        s < 9/10 ∧ s < 8/10 ∧ a < 5000 ∧ 6/10 ≤ s) ∧
      (determine_severity s a = AlertSeverity.INFO ↔
        s < 9/10 ∧ s < 8/10 ∧ a < 5000 ∧ s < 6/10) := by
    intro s a
    unfold determine_severity CRITICAL_RISK_THRESHOLD HIGH_RISK_THRESHOLD
      HIGH_VALUE_THRESHOLD
    split_ifs with h1 h2 h3
    · exact ⟨iff_of_true rfl h1,
        iff_of_false (by decide) (by rintro ⟨hx, -⟩; linarith),
        iff_of_false (by decide) (by rintro ⟨hx, -⟩; linarith),
        iff_of_false (by decide) (by rintro ⟨hx, -⟩; linarith)⟩
    · exact ⟨iff_of_false (by decide) (fun hx => h1 hx),
        iff_of_true rfl ⟨not_le.mp h1, h2⟩,
        iff_of_false (by decide)
          (by rintro ⟨-, hb, hc, -⟩; rcases h2 with h | h <;> linarith),
        iff_of_false (by decide)
          (by rintro ⟨-, hb, hc, -⟩; rcases h2 with h | h <;> linarith)⟩
    · push_neg at h2
      exact ⟨iff_of_false (by decide) (fun hx => h1 hx),
        iff_of_false (by decide)
          (by rintro ⟨-, h | h⟩ <;> [exact absurd h (not_le.mpr h2.1);
            exact absurd h (not_le.mpr h2.2)]),
        iff_of_true rfl ⟨not_le.mp h1, not_le.mp (fun hx => absurd hx (not_le.mpr h2.1)),
          lt_of_not_le (fun hx => absurd hx (not_le.mpr h2.2)), h3⟩,
        iff_of_false (by decide) (by rintro ⟨-, -, -, hx⟩; exact absurd h3 (not_le.mpr hx))⟩
    · push_neg at h2
      exact ⟨iff_of_false (by decide) (fun hx => h1 hx),
        iff_of_false (by decide)
          (by rintro ⟨-, h | h⟩ <;> [exact absurd h (not_le.mpr h2.1);
            exact absurd h (not_le.mpr h2.2)]),
        iff_of_false (by decide) (by rintro ⟨-, -, -, hx⟩; exact h3 hx),
        iff_of_true rfl ⟨not_le.mp h1, h2.1, h2.2, not_le.mp h3⟩⟩
  have hgate : ∀ (enabled : List NotificationChannel) (t : ChannelTransport)
      (s a : ℚ) (ch : Option (List NotificationChannel)),
      (¬ (determine_severity s a = AlertSeverity.HIGH ∨
          determine_severity s a = AlertSeverity.CRITICAL) →
        send_fraud_alert enabled t a s ch = ([], [])) ∧
      ((determine_severity s a = AlertSeverity.HIGH ∨
          determine_severity s a = AlertSeverity.CRITICAL) →
        (send_fraud_alert enabled t a s ch).2 =
          (match ch with
            | some (c :: cs) => c :: cs
            | _ => enabled).filter (fun c => c ∈ enabled)) := by
    intro enabled t s a ch
    constructor
    · intro h
      simp [send_fraud_alert, if_neg h]
    · intro h
      simp only [send_fraud_alert, if_pos h]
      rw [dispatch_attempted]
      simp
  have hcrit : determine_severity (95/100) 50 = AlertSeverity.CRITICAL :=
    (hsev (95/100) 50).1.mpr (by norm_num)
  have hinfo : determine_severity (1/2) 50 = AlertSeverity.INFO :=
    (hsev (1/2) 50).2.2.2.mpr (by norm_num)
  refine ⟨hsev, hgate, hcrit, ?_, hinfo, ?_⟩
  · intro t
    rw [(hgate [NotificationChannel.slack] t (95/100) 50 none).2 (Or.inr hcrit)]
    decide
  · intro t
    refine (hgate [NotificationChannel.slack] t (1/2) 50 none).1 ?_
    rw [hinfo]
    decide

/-- Witness for C6: the suppression branch exercised concretely — at score
0.5 and amount 50 nothing is dispatched. -/
theorem severity_thresholds_and_delivery_gate_witness :
    send_fraud_alert [NotificationChannel.slack] ⟨fun _ _ => true⟩ 50 (1/2) none =
      ([], []) := by
  refine (severity_thresholds_and_delivery_gate.2.1 [NotificationChannel.slack]
    ⟨fun _ _ => true⟩ (1/2) 50 none).1 ?_
  rw [severity_thresholds_and_delivery_gate.2.2.2.2.1]
  decide

/-- Helper: listing the name equations of the five channels. -/
theorem channelName_inj_aux : ∀ a b : NotificationChannel,
    channelName a = channelName b → a = b := by
  intro a b
  cases a <;> cases b <;>
    first
      | (intro _; rfl)
      | (intro h; exact absurd h (by decide))

/-- Helper: distinct channels have distinct names. -/
theorem channelName_injective : Function.Injective channelName :=
  fun a b h => channelName_inj_aux a b h

/-- Helper: after a Python-dict update the written key maps to the written
value, first branch (some existing entry has the key). -/
theorem lookupKey_map_update (k : String) (v : Bool) :
    ∀ m : List (String × Bool), m.any (fun p => p.1 == k) = true →
      lookupKey (m.map (fun p => if p.1 = k then (k, v) else p)) k = some v := by
  intro m
  induction m with
  | nil => simp
  | cons p rest ih =>
    intro hany
    by_cases hp : p.1 = k
    · simp [lookupKey, hp]
    · have hrest : rest.any (fun q => q.1 == k) = true := by
        simpa [hp] using hany
      simp [lookupKey, hp, ih hrest]

/-- Helper: after a Python-dict update the written key maps to the written
value, second branch (fresh key appended). -/
theorem lookupKey_append_single (k : String) (v : Bool) :
    ∀ m : List (String × Bool), m.any (fun p => p.1 == k) = false →
      lookupKey (m ++ [(k, v)]) k = some v := by
  intro m
  induction m with
  | nil =>
    intro _
    simp [lookupKey]
  | cons p rest ih =>
    intro hany
    rw [List.any_cons, Bool.or_eq_false_iff] at hany
    have hp : ¬ (p.1 = k) := by
      intro he
      rw [he] at hany
      simp at hany
    simp [lookupKey, hp, ih hany.2]

/-- Helper: a Python-dict update of key `k` maps `k` to the new value. -/
theorem lookupKey_dictInsert_self (m : List (String × Bool)) (k : String) (v : Bool) :
    lookupKey (dictInsert m k v) k = some v := by
  unfold dictInsert
  cases hany : m.any (fun p => p.1 == k) with
  | true =>
    rw [if_pos rfl]
    exact lookupKey_map_update k v m hany
  | false =>
    rw [if_neg (by simp)]
    exact lookupKey_append_single k v m hany

/-- Helper: a Python-dict update of another key leaves the lookup of key
`k1` unchanged, map branch. -/
theorem lookupKey_map_ne (k1 k2 : String) (v : Bool) (h : k1 ≠ k2) :
    ∀ m : List (String × Bool),
      lookupKey (m.map (fun p => if p.1 = k2 then (k2, v) else p)) k1 =
        lookupKey m k1 := by
  intro m
  induction m with
  | nil => rfl
  | cons p rest ih =>
    by_cases hp : p.1 = k2
    · simp [lookupKey, hp, Ne.symm h, ih]
    · simp [lookupKey, hp, ih]

/-- Helper: a Python-dict update of another key leaves the lookup of key
`k1` unchanged, append branch. -/
theorem lookupKey_append_ne (k1 k2 : String) (v : Bool) (h : k1 ≠ k2) :
    ∀ m : List (String × Bool),
      lookupKey (m ++ [(k2, v)]) k1 = lookupKey m k1 := by
  intro m
  induction m with
  | nil => simp [lookupKey, Ne.symm h]
  | cons p rest ih =>
    by_cases hp : p.1 = k1 <;> simp [lookupKey, hp, ih]

/-- Helper: a Python-dict update of another key leaves a lookup unchanged. -/
theorem lookupKey_dictInsert_ne (m : List (String × Bool)) (k1 k2 : String)
    (v : Bool) (h : k1 ≠ k2) :
    lookupKey (dictInsert m k2 v) k1 = lookupKey m k1 := by
  unfold dictInsert
  split_ifs with hany
  · exact lookupKey_map_ne k1 k2 v h m
  · exact lookupKey_append_ne k1 k2 v h m

/-- Helper: dispatching channels whose names all differ from `k` leaves the
lookup of `k` unchanged. -/
theorem dispatch_lookup_preserve (enabled : List NotificationChannel)
    (t : ChannelTransport) :
    ∀ (target : List NotificationChannel) (results : List (String × Bool))
      (attempted : List NotificationChannel) (k : String),
      (∀ c ∈ target, channelName c ≠ k) →
      lookupKey (dispatch enabled t target results attempted).1 k =
        lookupKey results k := by
  intro target
  induction target with
  | nil =>
    intro results attempted k _
    simp [dispatch]
  | cons c rest ih =>
    intro results attempted k hk
    by_cases hc : c ∈ enabled
    · simp only [dispatch, if_pos hc]
      rw [ih _ _ _ (fun d hd => hk d (List.mem_cons_of_mem _ hd))]
      exact lookupKey_dictInsert_ne results k (channelName c) _
        (Ne.symm (hk c (List.mem_cons_self _ _)))
    · simp only [dispatch, if_neg hc]
      exact ih _ _ _ (fun d hd => hk d (List.mem_cons_of_mem _ hd))

/-- Helper: the dispatch loop records, under the name of each enabled target
channel (target names distinct, key not already present), exactly the
outcome of that channel-specific send. -/
theorem dispatch_lookup (enabled : List NotificationChannel) (t : ChannelTransport) :
    ∀ (target : List NotificationChannel) (results : List (String × Bool))
      (attempted : List NotificationChannel) (c : NotificationChannel),
      c ∈ target → c ∈ enabled → (target.map channelName).Nodup →
      lookupKey results (channelName c) = none →
      lookupKey (dispatch enabled t target results attempted).1 (channelName c) =
        some (channel_send t c) := by
  intro target
  induction target with
  | nil =>
    intro results attempted c hc
    exact absurd hc (List.not_mem_nil c)
  | cons d rest ih =>
    intro results attempted c hct hce hnd hres
    have hnd1 := (List.nodup_cons.mp hnd).1
    have hnd2 := (List.nodup_cons.mp hnd).2
    rcases List.mem_cons.mp hct with heq | hcr
    · subst heq
      simp only [dispatch, if_pos hce]
      have hfresh : ∀ e ∈ rest, channelName e ≠ channelName c := by
        intro e he heq
        exact hnd1 (heq ▸ List.mem_map.mpr ⟨e, he, rfl⟩)
      rw [dispatch_lookup_preserve enabled t rest _ _ _ hfresh]
      exact lookupKey_dictInsert_self results (channelName c) (channel_send t c)
    · have hdc : channelName d ≠ channelName c := by
        intro heq
        exact hnd1 (heq ▸ List.mem_map.mpr ⟨c, hcr, rfl⟩)
      by_cases hd : d ∈ enabled
      · simp only [dispatch, if_pos hd]
        refine ih _ _ c hcr hce hnd2 ?_
        rw [lookupKey_dictInsert_ne _ _ _ _ (Ne.symm hdc)]
        exact hres
      · simp only [dispatch, if_neg hd]
        exact ih _ _ c hcr hce hnd2 hres

/-- Helper: the outcome of one channel depends only on the attempts of that
channel. -/
theorem channel_send_congr (t t' : ChannelTransport) (c : NotificationChannel)
    (h : ∀ n, t.attempt c n = t'.attempt c n) :
    channel_send t c = channel_send t' c := by
  cases c <;> simp [channel_send, h]

/-- C7: when the severity gate passes, `send_fraud_alert` over any
duplicate-free set of enabled channels records the outcome of every enabled
channel independently in the result map under the channel name — a failing
channel is recorded as `false` — and the entry of a channel is unchanged
under any change to the transports of the other channels, so one channel
exhausting its retries never prevents the others from being attempted and
reported in the same invocation. -/
theorem send_fraud_alert_isolation (enabled : List NotificationChannel)
    (t : ChannelTransport) (s a : ℚ) (hnd : enabled.Nodup)
    (hsev : determine_severity s a = AlertSeverity.HIGH ∨
      determine_severity s a = AlertSeverity.CRITICAL) :
    ∀ c ∈ enabled,
      lookupKey (send_fraud_alert enabled t a s none).1 (channelName c) =
        some (channel_send t c) ∧
      ∀ t' : ChannelTransport, (∀ n, t.attempt c n = t'.attempt c n) →
        lookupKey (send_fraud_alert enabled t' a s none).1 (channelName c) =
          lookupKey (send_fraud_alert enabled t a s none).1 (channelName c) := by
  intro c hc
  have hmain : ∀ t₀ : ChannelTransport,
      lookupKey (send_fraud_alert enabled t₀ a s none).1 (channelName c) =
        some (channel_send t₀ c) := by
    intro t₀
    simp only [send_fraud_alert, if_pos hsev]
    exact dispatch_lookup enabled t₀ enabled [] [] c hc hc
      (hnd.map channelName_injective) rfl
  refine ⟨hmain t, ?_⟩
  intro t' hagree
  rw [hmain t', hmain t]
  exact congrArg some (channel_send_congr t' t c (fun n => (hagree n).symm))

/-- Witness for C7: slack and email enabled, slack always failing, email
succeeding, at score 0.95 / amount 50 — both outcomes are reported in the
same invocation, slack as `false`, email as `true`. -/
theorem send_fraud_alert_isolation_witness :
    ([NotificationChannel.slack, NotificationChannel.email].Nodup) ∧
    lookupKey (send_fraud_alert [NotificationChannel.slack, NotificationChannel.email]
        ⟨fun c _ => c == NotificationChannel.email⟩ 50 (95/100) none).1 "slack" =
      some false ∧
    lookupKey (send_fraud_alert [NotificationChannel.slack, NotificationChannel.email]
        ⟨fun c _ => c == NotificationChannel.email⟩ 50 (95/100) none).1 "email" =
      some true := by
  have hsev : determine_severity (95/100) 50 = AlertSeverity.HIGH ∨
      determine_severity (95/100) 50 = AlertSeverity.CRITICAL := by
    right
    unfold determine_severity CRITICAL_RISK_THRESHOLD
    rw [if_pos (by norm_num)]
  have h := send_fraud_alert_isolation
    [NotificationChannel.slack, NotificationChannel.email]
    ⟨fun c _ => c == NotificationChannel.email⟩ (95/100) 50 (by decide) hsev
  refine ⟨by decide, ?_, ?_⟩
  · have := (h NotificationChannel.slack (by decide)).1
    rw [show channelName NotificationChannel.slack = "slack" from rfl] at this
    rw [this]
    decide
  · have := (h NotificationChannel.email (by decide)).1
    rw [show channelName NotificationChannel.email = "email" from rfl] at this
    rw [this]
    decide

/-- Helper: the value order is total. -/
theorem pvLe_total (a b : PValue) : pvLe a b ∨ pvLe b a := by
  cases a <;> cases b <;> simp [pvLe] <;> exact le_total _ _

/-- Helper: the value order is transitive. -/
theorem pvLe_trans (a b c : PValue) (h1 : pvLe a b) (h2 : pvLe b c) : pvLe a c := by
  cases a <;> cases b <;> cases c <;> simp_all [pvLe] <;> exact le_trans h1 h2

/-- Helper: the value order is antisymmetric. -/
theorem pvLe_antisymm (a b : PValue) (h1 : pvLe a b) (h2 : pvLe b a) : a = b := by
  cases a with
  | int m =>
    cases b with
    | int n => exact congrArg PValue.int (le_antisymm h1 h2)
    | str t => exact absurd h2 (by simp [pvLe])
  | str s =>
    cases b with
    | int n => exact absurd h1 (by simp [pvLe])
    | str t => exact congrArg PValue.str (le_antisymm h1 h2)

instance : IsTotal (String × PValue) paramLe := by
  constructor
  intro a b
  rcases lt_trichotomy a.1 b.1 with h | h | h
  · exact Or.inl (Or.inl h)
  · rcases pvLe_total a.2 b.2 with hv | hv
    · exact Or.inl (Or.inr ⟨h, hv⟩)
    · exact Or.inr (Or.inr ⟨h.symm, hv⟩)
  · exact Or.inr (Or.inl h)

instance : IsTrans (String × PValue) paramLe := by
  constructor
  intro a b c h1 h2
  rcases h1 with h1 | ⟨h1e, h1v⟩
  · rcases h2 with h2 | ⟨h2e, h2v⟩
    · exact Or.inl (h1.trans h2)
    · exact Or.inl (lt_of_lt_of_eq h1 h2e)
  · rcases h2 with h2 | ⟨h2e, h2v⟩
    · exact Or.inl (lt_of_eq_of_lt h1e h2)
    · exact Or.inr ⟨h1e.trans h2e, pvLe_trans _ _ _ h1v h2v⟩

instance : IsAntisymm (String × PValue) paramLe := by
  constructor
  intro a b h1 h2
  rcases h1 with h1 | ⟨h1e, h1v⟩
  · rcases h2 with h2 | ⟨h2e, h2v⟩
    · exact absurd (h1.trans h2) (lt_irrefl _)
    · exact absurd (lt_of_lt_of_eq h1 h2e) (lt_irrefl _)
  · rcases h2 with h2 | ⟨h2e, h2v⟩
    · exact absurd (lt_of_lt_of_eq h2 h1e) (lt_irrefl _)
    · exact Prod.ext h1e (pvLe_antisymm a.2 b.2 h1v h2v)

/-- C9: `cache_key` is a deterministic, order-independent function of the
endpoint name and the parameter set: two parameter lists that are
permutations of each other produce identical keys, for every serializer and
every digest function. -/
theorem cache_key_order_independent (md5hexdigest : String → String)
    (jsonDumps : List (String × PValue) → String) (endpoint : String)
    (p q : List (String × PValue)) (h : p.Perm q) :
    cache_key md5hexdigest jsonDumps endpoint p =
      cache_key md5hexdigest jsonDumps endpoint q := by
  have hs : sortedParams p = sortedParams q :=
    List.eq_of_perm_of_sorted
      ((List.perm_insertionSort paramLe p).trans
        (h.trans (List.perm_insertionSort paramLe q).symm))
      (List.sorted_insertionSort paramLe p) (List.sorted_insertionSort paramLe q)
  unfold cache_key sortedParams
  unfold sortedParams at hs
  rw [hs]

/-- Witness for C9: the two insertion orders of `limit=100, status="NEW"`
give the same key. -/
theorem cache_key_order_independent_witness :
    ([("limit", PValue.int 100), ("status", PValue.str "NEW")] : List (String × PValue)).Perm
      [("status", PValue.str "NEW"), ("limit", PValue.int 100)] ∧
    cache_key id (fun l => String.intercalate "," (l.map Prod.fst)) "anomalies"
        [("limit", PValue.int 100), ("status", PValue.str "NEW")] =
      cache_key id (fun l => String.intercalate "," (l.map Prod.fst)) "anomalies"
        [("status", PValue.str "NEW"), ("limit", PValue.int 100)] :=
  ⟨List.Perm.swap _ _ _,
    cache_key_order_independent id (fun l => String.intercalate "," (l.map Prod.fst))
      "anomalies" _ _ (List.Perm.swap _ _ _)⟩

/-- Helper: a lone `*` matches every string. -/
theorem globMatch_star_all : ∀ s : List Char, globMatch ['*'] s = true := by
  intro s
  induction s with
  | nil => simp [globMatch]
  | cons c cs ih => simp [globMatch, ih]

/-- Helper: unfolding one literal (non-`*`) pattern character. -/
theorem globMatch_lit_cons (p : Char) (ps : List Char) (c : Char) (cs : List Char)
    (hp : ¬ p = '*') :
    globMatch (p :: ps) (c :: cs) = ((p == '?' || p == c) && globMatch ps cs) := by
  simp only [globMatch]
  rw [if_neg hp]

/-- Helper: a pattern `pre*` with a wildcard-free stem matches every string
that extends `pre`. -/
theorem globMatch_append_star (pre : List Char) (hpre : ∀ c ∈ pre, c ≠ '*') :
    ∀ s, globMatch (pre ++ ['*']) (pre ++ s) = true := by
  induction pre with
  | nil =>
    intro s
    exact globMatch_star_all s
  | cons p ps ih =>
    intro s
    rw [List.cons_append, List.cons_append,
      globMatch_lit_cons p _ p _ (hpre p (List.mem_cons_self _ _))]
    simp [ih (fun c hc => hpre c (List.mem_cons_of_mem _ hc))]

/-- Helper: the anomalies pattern matches every extension of the
`anomalies:` stem. -/
theorem glob_anomalies_cover (s : List Char) :
    globMatch ("anomalies:*".toList) (("anomalies:".toList) ++ s) = true := by
  rw [show "anomalies:*".toList = "anomalies:".toList ++ ['*'] from rfl]
  exact globMatch_append_star _ (by decide) s

/-- C10: every key `cache_key` produces for the `anomalies` endpoint has the
form `anomalies:` followed by the digest of the serialized sorted
parameters, the pattern `anomalies:*` used by `invalidate_anomalies_cache`
matches every such key, and consequently no such key survives the domain
invalidation — the invalidation removes all cached results of the logical
query, for every parameter set, serializer and digest function. -/
theorem anomalies_invalidation_covers (md5hexdigest : String → String)
    (jsonDumps : List (String × PValue) → String)
    (params : List (String × PValue)) :
    cache_key md5hexdigest jsonDumps "anomalies" params =
      "anomalies:" ++ md5hexdigest (jsonDumps (sortedParams params)) ∧
    globMatch ("anomalies:*".toList)
      ((cache_key md5hexdigest jsonDumps "anomalies" params).toList) = true ∧
    ∀ (store : List (String × String)) (v : String),
      (cache_key md5hexdigest jsonDumps "anomalies" params, v) ∉
        (invalidate_anomalies_cache store).1 := by
  have hform : cache_key md5hexdigest jsonDumps "anomalies" params =
      "anomalies:" ++ md5hexdigest (jsonDumps (sortedParams params)) := rfl
  have hglob : globMatch ("anomalies:*".toList)
      ((cache_key md5hexdigest jsonDumps "anomalies" params).toList) = true := by
    rw [hform,
      show ("anomalies:" ++ md5hexdigest (jsonDumps (sortedParams params))).toList =
        "anomalies:".toList ++ (md5hexdigest (jsonDumps (sortedParams params))).toList
        from rfl]
    exact glob_anomalies_cover _
  refine ⟨hform, hglob, ?_⟩
  intro store v hmem
  unfold invalidate_anomalies_cache invalidate_pattern at hmem
  rw [List.mem_filter] at hmem
  have hfalse := hmem.2
  simp only [Bool.not_eq_true'] at hfalse
  rw [hglob] at hfalse
  exact Bool.noConfusion hfalse

/-- Witness for C10: a store holding exactly one anomalies key is emptied of
it by the domain invalidation. -/
theorem anomalies_invalidation_covers_witness :
    (cache_key id (fun _ => "digest") "anomalies" [], "value") ∉
      (invalidate_anomalies_cache
        [(cache_key id (fun _ => "digest") "anomalies" [], "value")]).1 :=
  (anomalies_invalidation_covers id (fun _ => "digest") []).2.2
    [(cache_key id (fun _ => "digest") "anomalies" [], "value")] "value"

end FraudDetection
